import Mathlib

/-!
Shallow embedding of the query-compilation and pagination engine of the
stac-fastapi-sqlalchemy catalog service, centred on
`stac_fastapi/sqlalchemy/core.py` (`CoreCrudClient.post_search`,
`CoreCrudClient.item_collection`, `CoreCrudClient.get_item`, and the
module-level filter helpers `add_filter_crs`, `get_geometry_filter`,
`inOrderFieldCollect_rec`, `validate_filter_fields`,
`inOrderOpsCollect_rec`, `validate_filter_operations`), together with the
queryable registry of `stac_fastapi/sqlalchemy/types/filter.py` and
`stac_fastapi/sqlalchemy/extensions/filter.py`.

Numbers occurring in requests and documents are modelled by `Int` (the
embedded fragment never does arithmetic on them, only comparison), strings
by `String` compared codepoint-wise, and the storage backend by an explicit
list of item rows plus oracles for the PostGIS geometry functions
(`ST_Intersects`, `ST_Distance` over centroids), which the engine only ever
composes symbolically.
-/

namespace StacSql

/-- Codepoint-wise comparison of character lists (model of text ordering). -/
def cmpCharList : List Char → List Char → Ordering
  | [], [] => .eq
  | [], _ :: _ => .lt
  | _ :: _, [] => .gt
  | a :: as, b :: bs =>
    match compare a.toNat b.toNat with
    | .eq => cmpCharList as bs
    | o => o

/-- Codepoint-wise comparison of strings. -/
def cmpStr (a b : String) : Ordering := cmpCharList a.toList b.toList

/-- Comparison of integers as an `Ordering` value. -/
def cmpInt (a b : Int) : Ordering := if a < b then .lt else if a = b then .eq else .gt

/-- JSON documents, as deserialized request bodies and filter documents. -/
inductive Json where
  | null
  | bool (b : Bool)
  | num (n : Int)
  | str (s : String)
  | arr (xs : List Json)
  | obj (kvs : List (String × Json))

/-- Lookup of a key in a JSON object member list (model of `dict.get`). -/
def jlookup : List (String × Json) → String → Option Json
  | [], _ => none
  | (k0, v0) :: rest, k => if k0 = k then some v0 else jlookup rest k

/-- Assignment `d[k] = v` on a JSON object member list: replaces the value
in place when the key is present, appends the pair otherwise. -/
def setKey : List (String × Json) → String → Json → List (String × Json)
  | [], k, v => [(k, v)]
  | (k0, v0) :: rest, k, v =>
    if k0 = k then (k, v) :: rest else (k0, v0) :: setKey rest k v

/-- Deletion of every member with the given key. -/
def delKey : List (String × Json) → String → List (String × Json)
  | [], _ => []
  | (k0, v0) :: rest, k =>
    if k0 = k then delKey rest k else (k0, v0) :: delKey rest k

/-- The seven GeoJSON geometry type names recognized by `add_filter_crs`. -/
def isGeomType (t : String) : Bool :=
  t = "Polygon" || t = "LineString" || t = "Point" || t = "MultiPolygon" ||
  t = "MultiLineString" || t = "MultiPoint" || t = "GeometryCollection"

/-- Whether a JSON object member list is a GeoJSON geometry object, i.e.
its `type` member is one of the recognized geometry type names
(`data.get("type") in (...)` in `add_filter_crs`). -/
def isGeomObjKvs (kvs : List (String × Json)) : Bool :=
  match jlookup kvs "type" with
  | some (.str t) => isGeomType t
  | _ => false

mutual
/-- Model of `add_filter_crs` (core.py lines 54 to 80): recursively walk
the filter document; on a list, recurse into every element; on a dict whose
`type` member is a geometry type name, set its `crs` member to the filter
SRID and stop; on any other dict, recurse into every value; leave scalars
unchanged.  The Python function mutates in place; the model returns the
updated document. -/
def addFilterCrs (c : Int) : Json → Json
  | .arr xs => .arr (addFilterCrsList c xs)
  | .obj kvs =>
    if isGeomObjKvs kvs then .obj (setKey kvs "crs" (.num c))
    else .obj (addFilterCrsKvs c kvs)
  | j => j

/-- List part of the `add_filter_crs` walk. -/
def addFilterCrsList (c : Int) : List Json → List Json
  | [] => []
  | x :: xs => addFilterCrs c x :: addFilterCrsList c xs

/-- Object-member part of the `add_filter_crs` walk. -/
def addFilterCrsKvs (c : Int) : List (String × Json) → List (String × Json)
  | [] => []
  | (k, v) :: xs => (k, addFilterCrs c v) :: addFilterCrsKvs c xs
end

mutual
/-- Inverse walk for `add_filter_crs`: deletes the `crs` member of every
geometry object reached without passing through another geometry object,
following exactly the recursion structure of `add_filter_crs`. -/
def eraseGeomCrs : Json → Json
  | .arr xs => .arr (eraseGeomCrsList xs)
  | .obj kvs =>
    if isGeomObjKvs kvs then .obj (delKey kvs "crs")
    else .obj (eraseGeomCrsKvs kvs)
  | j => j

/-- List part of the erasing walk. -/
def eraseGeomCrsList : List Json → List Json
  | [] => []
  | x :: xs => eraseGeomCrs x :: eraseGeomCrsList xs

/-- Object-member part of the erasing walk. -/
def eraseGeomCrsKvs : List (String × Json) → List (String × Json)
  | [] => []
  | (k, v) :: xs => (k, eraseGeomCrs v) :: eraseGeomCrsKvs xs
end

mutual
/-- No member anywhere in the document has key `crs`. -/
def noCrs : Json → Bool
  | .arr xs => noCrsList xs
  | .obj kvs => noCrsKvs kvs
  | _ => true

/-- List part of the `crs`-absence check. -/
def noCrsList : List Json → Bool
  | [] => true
  | x :: xs => noCrs x && noCrsList xs

/-- Object-member part of the `crs`-absence check. -/
def noCrsKvs : List (String × Json) → Bool
  | [] => true
  | (k, v) :: xs => !(k = "crs" : Bool) && noCrs v && noCrsKvs xs
end

/-- One step of a navigation path into a JSON document. -/
inductive PathStep where
  | key (k : String)
  | idx (i : Nat)

/-- Navigation into a JSON document along a path of keys and indices. -/
def jgetPath : Json → List PathStep → Option Json
  | j, [] => some j
  | .obj kvs, .key k :: p =>
    match jlookup kvs k with
    | some v => jgetPath v p
    | none => none
  | .arr xs, .idx i :: p =>
    match xs.get? i with
    | some v => jgetPath v p
    | none => none
  | _, _ => none

/-- Pythonic truthiness of a deserialized JSON value. -/
def truthyJson : Json → Bool
  | .null => false
  | .bool b => b
  | .num n => !(n = 0 : Bool)
  | .str s => !s.isEmpty
  | .arr xs => !xs.isEmpty
  | .obj kvs => !kvs.isEmpty

/-- Pythonic truthiness of an optional list parameter. -/
def truthyOpt {α : Type} : Option (List α) → Bool
  | some (_ :: _) => true
  | _ => false

/-- Values of `BaseQueryables` in extensions/filter.py: queryable fields
present for every collection. -/
def baseQueryables : List String := ["id", "collection", "geometry", "datetime"]

/-- Values of `SkraafotosProperties` in extensions/filter.py: the
per-collection queryable properties. -/
def skraafotosProps : List String :=
  ["pers:perspective_center.x", "pers:perspective_center.y",
   "pers:perspective_center.z", "pers:vertical_crs", "pers:crs",
   "pers:omega", "pers:phi", "pers:kappa", "direction", "view:azimuth",
   "view:off_nadir", "estimated_accuracy", "providers.producer", "gsd",
   "instruments", "pers:interior_orientation.focal_length",
   "pers:interior_orientation.calibration_date"]

/-- The collection ids registered in `Queryables.collections`
(types/filter.py); each maps to `SkraafotosProperties`. -/
def knownCollections : List String :=
  ["skraafotos2017", "skraafotos2019", "skraafotos2021", "skraafotos2023"]

/-- Model of `Queryables.get_queryable_properties_intersection`
(types/filter.py): an empty input defaults to all registered collections;
unknown collection ids contribute nothing; the result is the intersection
of the per-collection property lists (empty when no known collection was
named). -/
def queryablePropsIntersection (collectionIds : List String) : List String :=
  let ids := if collectionIds.isEmpty then knownCollections else collectionIds
  let lists := ids.filterMap
    (fun c => if knownCollections.contains c then some skraafotosProps else none)
  match lists with
  | [] => []
  | l :: ls => ls.foldl (fun acc x => acc.filter (fun f => x.contains f)) l

/-- The keys of `CoreCrudClient.FIELD_MAPPING`, built from
`Queryables.get_all_queryables()`: base queryables plus every property of
every registered collection. -/
def allQueryables : List String := baseQueryables ++ skraafotosProps

/-- The valid filter fields computed in `post_search` (core.py lines 963
to 968): base queryables plus the property intersection, scoped to the
requested collections when `search_request.collections` is truthy. -/
def validFieldsPost (collections : Option (List String)) : List String :=
  if truthyOpt collections then
    baseQueryables ++ queryablePropsIntersection (collections.getD [])
  else
    baseQueryables ++ queryablePropsIntersection []

/-- Deduplication keeping first occurrences (model of the `list(set(...))`
dedup in the validators, whose order Python leaves unspecified). -/
def dedupFirst (seen : List String) : List String → List String
  | [] => []
  | x :: xs => if seen.contains x then dedupFirst seen xs else x :: dedupFirst (x :: seen) xs

/-- Comparison operator tags of the pygeofilter AST nodes reachable from
the cql-json operator keys `eq`, `ne`, `lt`, `lte`, `gt`, `gte`.  The tags
are the lower-cased AST op names, so `lte` parses to `le` and `gte` to
`ge` (the naming inconsistency worked around in
`validate_filter_operations`). -/
inductive CmpOp where
  | eq | ne | lt | le | gt | ge
deriving DecidableEq

/-- Lower-cased AST name of a comparison op (`expr.op.name.lower()`). -/
def opName : CmpOp → String
  | .eq => "eq"
  | .ne => "ne"
  | .lt => "lt"
  | .le => "le"
  | .gt => "gt"
  | .ge => "ge"

/-- The compiled filter AST: the pygeofilter node shapes used by the
filter documents this service accepts.  `attrF` is `ast.Attribute` (the
only node carrying a field name), `geomLit` is a geometry literal value
node (the only node with a `geometry` attribute), `between` has children
`lhs`, `low`, `high`, `isNullE` and `notE` have a single child (`lhs`
resp. `sub_node`), and the remaining nodes have children `lhs`, `rhs`. -/
inductive Ast where
  | attrF (name : String)
  | litV (v : Json)
  | geomLit (g : Json)
  | cmpE (op : CmpOp) (lhs rhs : Ast)
  | andE (lhs rhs : Ast)
  | orE (lhs rhs : Ast)
  | notE (sub : Ast)
  | between (lhs low high : Ast)
  | isNullE (lhs : Ast)
  | sIntersects (lhs rhs : Ast)

/-- Model of `inOrderFieldCollect_rec` (core.py lines 101 to 122): return
the attribute name at an `Attribute` leaf; recurse into `sub_node` for
`Not`; recurse into `lhs` and `rhs` where those attributes exist.  A
`between` node only has `lhs`, `low`, `high`, so only its `lhs` branch is
visited; an `isNull` node only has `lhs`. -/
def collectFields : Ast → List String
  | .attrF n => [n]
  | .notE s => collectFields s
  | .cmpE _ l r => collectFields l ++ collectFields r
  | .andE l r => collectFields l ++ collectFields r
  | .orE l r => collectFields l ++ collectFields r
  | .sIntersects l r => collectFields l ++ collectFields r
  | .between l _ _ => collectFields l
  | .isNullE l => collectFields l
  | _ => []

/-- Every attribute name occurring anywhere in the expression tree,
including the `low` and `high` children of `between` nodes.
`pygeofilter.backends.sqlalchemy.to_filter` resolves exactly these names
against `FIELD_MAPPING` when compiling. -/
def collectAllAttrs : Ast → List String
  | .attrF n => [n]
  | .notE s => collectAllAttrs s
  | .cmpE _ l r => collectAllAttrs l ++ collectAllAttrs r
  | .andE l r => collectAllAttrs l ++ collectAllAttrs r
  | .orE l r => collectAllAttrs l ++ collectAllAttrs r
  | .sIntersects l r => collectAllAttrs l ++ collectAllAttrs r
  | .between l lo hi => collectAllAttrs l ++ collectAllAttrs lo ++ collectAllAttrs hi
  | .isNullE l => collectAllAttrs l
  | _ => []

/-- Model of `validate_filter_fields` (core.py lines 124 to 139): collect
the referenced fields, deduplicate, and fail with
`Cannot search on field: X` on the first one outside the valid set. -/
def validateFilterFields (e : Ast) (valid : List String) : Except String Unit :=
  match (dedupFirst [] (collectFields e)).find? (fun f => !valid.contains f) with
  | some f => .error ("Cannot search on field: " ++ f)
  | none => .ok ()

/-- Model of `inOrderOpsCollect_rec` (core.py lines 141 to 161): collect
the lower-cased op name of every node whose type is in the pygeofilter
parser operator maps (comparison and spatial nodes among the shapes
modelled here; `And`, `Or`, `Not`, `Between`, `IsNull` are parsed by
dedicated branches and are in no map), recursing into `sub_node`, `lhs`
and `rhs` where present. -/
def collectOps : Ast → List String
  | .cmpE op l r => opName op :: (collectOps l ++ collectOps r)
  | .sIntersects l r => "intersects" :: (collectOps l ++ collectOps r)
  | .andE l r => collectOps l ++ collectOps r
  | .orE l r => collectOps l ++ collectOps r
  | .notE s => collectOps s
  | .between l _ _ => collectOps l
  | .isNullE l => collectOps l
  | _ => []

/-- The keys of the `valid_operations` maps assembled in `post_search`
(comparison, spatial, temporal and arithmetic maps; the array predicate
map is commented out), restricted to the operator vocabulary modelled
here. -/
def supportedOps : List String :=
  ["eq", "ne", "lt", "lte", "gt", "gte", "intersects"]

/-- Model of `validate_filter_operations` (core.py lines 163 to 188):
deduplicate the collected op names, remap `ge` to `gte` and `le` to
`lte`, and fail on any name outside the supported set. -/
def validateFilterOperations (e : Ast) : Except String Unit :=
  let remap := fun o => if o = "ge" then "gte" else if o = "le" then "lte" else o
  match (dedupFirst [] (collectOps e)).find? (fun o => !supportedOps.contains (remap o)) with
  | some _ => .error "Unsupported operation"
  | none => .ok ()

/-- Model of `get_geometry_filter` (core.py lines 82 to 99): return the
first node carrying a `geometry` attribute, preferring the `lhs` subtree;
`Not` nodes have neither `geometry` nor `lhs`/`rhs`, so the walk stops
there. -/
def getGeometryFilter : Ast → Option Json
  | .geomLit g => some g
  | .cmpE _ l r => (getGeometryFilter l).orElse (fun _ => getGeometryFilter r)
  | .andE l r => (getGeometryFilter l).orElse (fun _ => getGeometryFilter r)
  | .orE l r => (getGeometryFilter l).orElse (fun _ => getGeometryFilter r)
  | .sIntersects l r => (getGeometryFilter l).orElse (fun _ => getGeometryFilter r)
  | .between l _ _ => getGeometryFilter l
  | .isNullE l => getGeometryFilter l
  | _ => none

end StacSql

namespace StacSql

mutual
/-- Model of the recursive cql-json walk of
`pygeofilter.parsers.cql_json.parse`, restricted to the operator
vocabulary this service accepts: scalars become literals, a dict with a
`property` member becomes an `Attribute`, a dict whose `type` is a
geometry type name becomes a geometry literal, and any other dict is
dispatched on its first key as an operator node.  The recursion is paid
for by a fuel argument consumed once per call; `parseDoc` supplies more
fuel than any walk of the document can consume, so the fuel-exhaustion
branch is unreachable from it. -/
def parseVal : Nat → Json → Except String Ast
  | 0, _ => .error "Unable to parse expression node"
  | _ + 1, .str s => .ok (.litV (.str s))
  | _ + 1, .num n => .ok (.litV (.num n))
  | _ + 1, .bool b => .ok (.litV (.bool b))
  | _ + 1, .null => .ok (.litV .null)
  | _ + 1, .arr _ => .error "Unable to parse expression node"
  | fuel + 1, .obj kvs =>
    match jlookup kvs "property" with
    | some (.str n) => .ok (.attrF n)
    | some _ => .error "Unable to parse expression node"
    | none =>
      if isGeomObjKvs kvs then .ok (.geomLit (.obj kvs))
      else parseOpObj fuel kvs

/-- Operator dispatch on the first key of a non-empty dict; a key outside
the recognized operator vocabulary is a parse failure (the
`Unable to parse expression node` error observed in the tests). -/
def parseOpObj : Nat → List (String × Json) → Except String Ast
  | 0, _ => .error "Unable to parse expression node"
  | _ + 1, [] => .error "Unable to parse expression node"
  | fuel + 1, (k, v) :: _ =>
    if k = "and" then parseCombined fuel true v
    else if k = "or" then parseCombined fuel false v
    else if k = "not" then
      match parseVal fuel v with
      | .ok s => .ok (.notE s)
      | .error e => .error e
    else if k = "eq" then parseBinary fuel (Ast.cmpE .eq) v
    else if k = "ne" then parseBinary fuel (Ast.cmpE .ne) v
    else if k = "lt" then parseBinary fuel (Ast.cmpE .lt) v
    else if k = "lte" then parseBinary fuel (Ast.cmpE .le) v
    else if k = "gt" then parseBinary fuel (Ast.cmpE .gt) v
    else if k = "gte" then parseBinary fuel (Ast.cmpE .ge) v
    else if k = "isNull" then
      match parseVal fuel v with
      | .ok s => .ok (.isNullE s)
      | .error e => .error e
    else if k = "between" then parseBetween fuel v
    else if k = "intersects" then parseBinary fuel Ast.sIntersects v
    else .error "Unable to parse expression node"

/-- Parse of `and`/`or` over a non-empty argument list, combined
left-associatively (`functools.reduce` over the parsed children). -/
def parseCombined : Nat → Bool → Json → Except String Ast
  | 0, _, _ => .error "Unable to parse expression node"
  | fuel + 1, isAnd, .arr (x :: xs) =>
    (match parseVal fuel x with
     | .ok a => parseFold fuel isAnd a xs
     | .error e => .error e)
  | _ + 1, _, _ => .error "Unable to parse expression node"

/-- Left fold of the remaining `and`/`or` arguments. -/
def parseFold : Nat → Bool → Ast → List Json → Except String Ast
  | 0, _, _, _ => .error "Unable to parse expression node"
  | _ + 1, _, acc, [] => .ok acc
  | fuel + 1, isAnd, acc, x :: xs =>
    match parseVal fuel x with
    | .ok a => parseFold fuel isAnd (if isAnd then .andE acc a else .orE acc a) xs
    | .error e => .error e

/-- Parse of a binary operator node from the first two entries of its
argument list (`walk(value[0]), walk(value[1])`; later entries are
ignored, fewer entries fail the parse). -/
def parseBinary : Nat → (Ast → Ast → Ast) → Json → Except String Ast
  | 0, _, _ => .error "Unable to parse expression node"
  | fuel + 1, mk, .arr (a :: b :: _) =>
    (match parseVal fuel a with
     | .ok l =>
       match parseVal fuel b with
       | .ok r => .ok (mk l r)
       | .error e => .error e
     | .error e => .error e)
  | _ + 1, _, _ => .error "Unable to parse expression node"

/-- Parse of a `between` node from its `value`, `lower` and `upper`
members, each walked as an expression. -/
def parseBetween : Nat → Json → Except String Ast
  | 0, _ => .error "Unable to parse expression node"
  | fuel + 1, .obj bkvs =>
    (match jlookup bkvs "value", jlookup bkvs "lower", jlookup bkvs "upper" with
     | some bv, some bl, some bu =>
       match parseVal fuel bv with
       | .ok x =>
         match parseVal fuel bl with
         | .ok y =>
           match parseVal fuel bu with
           | .ok z => .ok (.between x y z)
           | .error e => .error e
         | .error e => .error e
       | .error e => .error e
     | _, _, _ => .error "Unable to parse expression node")
  | _ + 1, _ => .error "Unable to parse expression node"
end

mutual
/-- Syntactic size of a document, used only to provision parser fuel. -/
def jsize : Json → Nat
  | .arr xs => 1 + jsizeList xs
  | .obj kvs => 1 + jsizeKvs kvs
  | _ => 1

/-- Size of a member list. -/
def jsizeList : List Json → Nat
  | [] => 1
  | x :: xs => 1 + jsize x + jsizeList xs

/-- Size of an object member list. -/
def jsizeKvs : List (String × Json) → Nat
  | [] => 1
  | (_, v) :: xs => 1 + jsize v + jsizeKvs xs
end

/-- Model of the top-level `pygeofilter.parsers.cql_json.parse` call as
used in `post_search` and `item_collection`: the walk of an empty dict
matches no operator branch and yields no node (`ast is None` in the
callers); any other document is walked, with enough fuel that the
exhaustion branch is unreachable. -/
def parseDoc (j : Json) : Except String (Option Ast) :=
  match j with
  | .obj [] => .ok none
  | _ => (parseVal (4 * jsize j + 4) j).map some

end StacSql

namespace StacSql

/-- Geometry values as the engine composes them: rectangles built by
`ShapelyPolygon.from_bounds` from a bbox, and GeoJSON documents from
`intersects` parameters or geometry literals inside filters. -/
inductive GeoObj where
  | rect (x1 y1 x2 y2 : Int)
  | gjson (g : Json)

/-- Sort directions of the sort extension. -/
inductive SortDir where
  | asc | desc
deriving DecidableEq

/-- One requested sort field with its direction. -/
structure SortField where
  field : String
  dir : SortDir
deriving DecidableEq

/-- One ORDER BY key of the compiled query: a column (possibly a JSONB
projection) with a direction, or the ascending distance from the centroid
of an input geometry (in the given SRID) to the centroid of the item
footprint envelope. -/
inductive OrderKey where
  | col (f : String) (d : SortDir)
  | distToCentroid (g : GeoObj) (srid : Nat)

/-- Shape of an order key with the geometry argument erased, for decidable
statements about compiled sort specifications. -/
inductive KeyShape where
  | colS (f : String) (d : SortDir)
  | distS
deriving DecidableEq

/-- Shape of an order key. -/
def keyShape : OrderKey → KeyShape
  | .col f d => .colS f d
  | .distToCentroid _ _ => .distS

/-- One WHERE clause of the compiled query. -/
inductive Pred where
  | collIn (ids : List String)
  | collEq (cid : String)
  | idIn (ids : List String)
  | spatial (g : GeoObj) (srid : Nat)
  | cqlPred (e : Ast)
  | dtEq (t : String)
  | dtBetween (a b : String)
  | dtGe (a : String)
  | dtLe (b : String)

/-- The logical query object the orchestrator hands to the storage
adapter: conjunction of predicates plus the accumulated ORDER BY list
(successive `order_by` calls append their keys). -/
structure Query where
  preds : List Pred
  orderBy : List OrderKey

/-- One stored item row (`images_mvw`): primary-key id, owning collection,
acquisition datetime (RFC3339 text, whose codepoint order is its
chronological order), footprint geometry and the JSONB properties bag. -/
structure ItemRow where
  id : String
  collection : String
  datetime : String
  footprint : GeoObj
  props : List (String × Json)

/-- Oracles for the PostGIS functions the engine composes but never
evaluates itself: centroid distance (`ST_Distance`/`ST_Centroid`/
`ST_Envelope`/`ST_Transform`) and spatial intersection (`ST_Intersects`),
each taking the input geometry, the SRID it is interpreted in, and the
item footprint. -/
structure SpatialOracle where
  dist : GeoObj → Nat → GeoObj → Int
  sects : GeoObj → Nat → GeoObj → Bool

/-- Value of a sortable or filterable field on a row: the dedicated
columns `id`, `datetime`, `collection`, and the JSONB properties bag for
everything else (`Item.get_field` in models/database.py). -/
def rowValue (r : ItemRow) (f : String) : Json :=
  if f = "id" then .str r.id
  else if f = "datetime" then .str r.datetime
  else if f = "collection" then .str r.collection
  else (jlookup r.props f).getD .null

/-- Rank used to compare JSON values of different shapes. -/
def jrank : Json → Nat
  | .null => 0
  | .bool _ => 1
  | .num _ => 2
  | .str _ => 3
  | .arr _ => 4
  | .obj _ => 5

/-- Total comparison of JSON scalar values (numbers numerically, strings
codepoint-wise, otherwise by shape rank). -/
def cmpJson : Json → Json → Ordering
  | .num x, .num y => cmpInt x y
  | .str x, .str y => cmpStr x y
  | .bool x, .bool y => if x = y then .eq else if x then .gt else .lt
  | x, y => compare (jrank x) (jrank y)

/-- Direction applied to a comparison outcome. -/
def dirApply : SortDir → Ordering → Ordering
  | .asc, o => o
  | .desc, o => o.swap

/-- SRID tag of a geometry document: its `crs` member when
`add_filter_crs` put one there, 4326 otherwise (the default of the
monkeypatched `parse_geometry`). -/
def crsOfGeomJson : Json → Nat
  | .obj kvs =>
    (match jlookup kvs "crs" with
     | some (.num n) => n.toNat
     | _ => 4326)
  | _ => 4326

/-- Value semantics of AST operands on a row. -/
def evalExprA (r : ItemRow) : Ast → Json
  | .attrF f => rowValue r f
  | .litV v => v
  | _ => .null

/-- Boolean semantics of a compiled filter AST on a row; `between` is
inclusive on both bounds, spatial intersection is delegated to the
oracle with the SRID taken from the geometry document tag. -/
def evalBoolA (oracle : SpatialOracle) (r : ItemRow) : Ast → Bool
  | .cmpE op l rhs =>
    let c := cmpJson (evalExprA r l) (evalExprA r rhs)
    (match op with
     | .eq => c == .eq
     | .ne => c != .eq
     | .lt => c == .lt
     | .le => c != .gt
     | .gt => c == .gt
     | .ge => c != .lt)
  | .andE a b => evalBoolA oracle r a && evalBoolA oracle r b
  | .orE a b => evalBoolA oracle r a || evalBoolA oracle r b
  | .notE s => !(evalBoolA oracle r s)
  | .between v lo hi =>
    (cmpJson (evalExprA r v) (evalExprA r lo) != .lt) &&
    (cmpJson (evalExprA r v) (evalExprA r hi) != .gt)
  | .isNullE l =>
    (match evalExprA r l with
     | .null => true
     | _ => false)
  | .sIntersects _ (.geomLit g) => oracle.sects (.gjson g) (crsOfGeomJson g) r.footprint
  | .sIntersects (.geomLit g) _ => oracle.sects (.gjson g) (crsOfGeomJson g) r.footprint
  | _ => false

/-- Evaluation of one compiled predicate on a row. -/
def evalPred (oracle : SpatialOracle) (r : ItemRow) : Pred → Bool
  | .collIn ids => ids.contains r.collection
  | .collEq cid => r.collection == cid
  | .idIn ids => ids.contains r.id
  | .spatial g srid => oracle.sects g srid r.footprint
  | .cqlPred e => evalBoolA oracle r e
  | .dtEq t => r.datetime == t
  | .dtBetween a b => (cmpStr a r.datetime != .gt) && (cmpStr r.datetime b != .gt)
  | .dtGe a => cmpStr r.datetime a != .lt
  | .dtLe b => cmpStr r.datetime b != .gt

/-- Comparison of two rows under one order key. -/
def cmpByKey (oracle : SpatialOracle) (k : OrderKey) (a b : ItemRow) : Ordering :=
  match k with
  | .col f d => dirApply d (cmpJson (rowValue a f) (rowValue b f))
  | .distToCentroid g srid =>
    cmpInt (oracle.dist g srid a.footprint) (oracle.dist g srid b.footprint)

/-- Lexicographic comparison of two rows under an order key list. -/
def cmpByKeys (oracle : SpatialOracle) : List OrderKey → ItemRow → ItemRow → Ordering
  | [], _, _ => .eq
  | k :: ks, a, b =>
    match cmpByKey oracle k a b with
    | .eq => cmpByKeys oracle ks a b
    | o => o

/-- Non-strict row order induced by an order key list. -/
def rowLe (oracle : SpatialOracle) (ks : List OrderKey) (a b : ItemRow) : Bool :=
  cmpByKeys oracle ks a b != .gt

/-- Insertion into a sorted list. -/
def insortBy {α : Type} (le : α → α → Bool) (x : α) : List α → List α
  | [] => [x]
  | y :: ys => if le x y then x :: y :: ys else y :: insortBy le x ys

/-- Insertion sort (the model of ORDER BY; any sorting algorithm agrees
with it on a total order, which theorem c7 establishes for the compiled
key lists). -/
def sortByLe {α : Type} (le : α → α → Bool) (l : List α) : List α :=
  l.foldr (insortBy le) []

/-- Rows sorted by an order key list. -/
def sortRows (oracle : SpatialOracle) (ks : List OrderKey) (rows : List ItemRow) :
    List ItemRow :=
  sortByLe (rowLe oracle ks) rows

/-- Request-local error taxonomy of the engine. -/
inductive Err where
  | validation (msg : String)
  | parse (msg : String)
  | invalidField (msg : String)
  | invalidOp (msg : String)
  | keyErr (name : String)
  | nameErr (name : String)
  | notFound (msg : String)
  | countFailure
deriving DecidableEq

/-- The filter pipeline of `post_search` (core.py lines 943 to 994) and
`item_collection` (lines 469 to 519): tag embedded geometries with the
filter SRID, parse the cql-json document, fail when the walk produced no
node, validate the collected fields against the valid set
(`Cannot search on field: X`, surfaced inside an
`Invalid field used in filter` response), validate the collected
operations, then compile with `to_filter`, whose lookup of an attribute
name missing from `FIELD_MAPPING` is an unhandled `KeyError`
(`Err.keyErr`). -/
def processFilter (valid : List String) (filterSrid : Nat) (doc : Json) :
    Except Err Ast :=
  let tagged := addFilterCrs (Int.ofNat filterSrid) doc
  match parseDoc tagged with
  | .error e => .error (.parse ("The input cql-json could not be parsed: " ++ e))
  | .ok none => .error (.parse "The input cql-json could not be parsed")
  | .ok (some ast) =>
    match validateFilterFields ast valid with
    | .error e => .error (.invalidField e)
    | .ok _ =>
      match validateFilterOperations ast with
      | .error e => .error (.invalidOp e)
      | .ok _ =>
        match (collectAllAttrs ast).find? (fun f => !allQueryables.contains f) with
        | some f => .error (.keyErr f)
        | none => .ok ast

/-- Feature flags of the running application and the health of the count
sub-query execution. -/
structure Config where
  crsEnabled : Bool := false
  filterEnabled : Bool := false
  contextEnabled : Bool := false
  countOk : Bool := true

/-- A validated search request as `post_search` receives it; the CRS
parameters are carried as already resolved SRIDs. -/
structure SearchRequest where
  collections : Option (List String) := none
  ids : Option (List String) := none
  bbox : Option (List Int) := none
  intersects : Option Json := none
  datetime : Option (List String) := none
  filter : Option Json := none
  sortby : Option (List SortField) := none
  bboxCrsSrid : Nat := 4326
  filterCrsSrid : Nat := 4326
  limit : Nat := 10

/-- Key of one requested sort field (`getattr(field, direction)()` plus
the field resolution of `Item.get_field`). -/
def sortKeyOf (sf : SortField) : OrderKey := .col sf.field sf.dir

/-- The sort block of `post_search` (core.py lines 1013 to 1028): a truthy
`sortby` contributes its keys followed by the item id; otherwise the
default sort `datetime DESC, id` applies. -/
def sortSpecOf (sortby : Option (List SortField)) : List OrderKey :=
  match sortby with
  | some (s :: ss) => ((s :: ss).map sortKeyOf) ++ [.col "id" .asc]
  | _ => [.col "datetime" .desc, .col "id" .asc]

/-- Open-interval markers of a datetime bound. -/
def openMarker (s : String) : Bool := s = "" || s = ".."

/-- The temporal clause chain of `post_search` (core.py lines 1030 to
1043) and `item_collection` (lines 454 to 467): a single value is an
equality, two closed bounds an inclusive between, one closed bound a
one-sided inequality, and two open bounds contribute no clause. -/
def datetimePreds : Option (List String) → List Pred
  | some [t] => [.dtEq t]
  | some (a :: b :: _) =>
    if !openMarker a && !openMarker b then [.dtBetween a b]
    else if !openMarker a then [.dtGe a]
    else if !openMarker b then [.dtLe b]
    else []
  | _ => []

/-- The bbox handling of `post_search` (core.py lines 895 to 906) and
`item_collection` (lines 413 to 420): a 4-element bbox becomes the
rectangle of its bounds, a 6-element bbox drops the two z bounds and
becomes the rectangle of elements 0, 1, 3, 4, and any other shape
contributes no geometry. -/
def geomOfBbox : Option (List Int) → Option GeoObj
  | some [x1, y1, x2, y2] => some (.rect x1 y1 x2 y2)
  | some [x1, y1, _, x2, y2, _] => some (.rect x1 y1 x2 y2)
  | _ => none

/-- The spatial input of the non-ids search path: `intersects` when given
(`is not None`), the bbox rectangle otherwise. -/
def effectiveGeom (intersects : Option Json) (bbox : Option (List Int)) :
    Option GeoObj :=
  match intersects with
  | some g => some (.gjson g)
  | none => geomOfBbox bbox

/-- The collection scoping clause (core.py lines 855 to 863), applied
before the ids short-circuit check. -/
def collectionPreds (collections : Option (List String)) : List Pred :=
  if truthyOpt collections then [.collIn (collections.getD [])] else []

/-- The non-ids branch of `post_search` (core.py lines 890 to 1043):
spatial clause and conditional distance ordering (only when `sortby` is
`None`), then the filter pipeline, whose distance ordering uses the
filter geometry or the geometry carried over from bbox/intersects and is
appended regardless of `sortby`, then the sort block, then the temporal
clause. -/
def buildQueryElse (cfg : Config) (req : SearchRequest) : Except Err Query :=
  let bboxSrid := if cfg.crsEnabled then req.bboxCrsSrid else 4326
  let filterSrid := if cfg.filterEnabled then req.filterCrsSrid else 4326
  let geomB := effectiveGeom req.intersects req.bbox
  let spatialPreds := match geomB with
                      | some g => [Pred.spatial g bboxSrid]
                      | none => []
  let ord1 := match geomB, req.sortby with
              | some g, none => [OrderKey.distToCentroid g bboxSrid]
              | _, _ => []
  match req.filter with
  | some doc =>
    if truthyJson doc then
      match processFilter (validFieldsPost req.collections) filterSrid doc with
      | .error e => .error e
      | .ok ast =>
        let geomF := match getGeometryFilter ast with
                     | some gj => some (GeoObj.gjson gj)
                     | none => geomB
        let ord2 := match geomF with
                    | some g => [OrderKey.distToCentroid g filterSrid]
                    | none => []
        .ok { preds := collectionPreds req.collections ++ spatialPreds ++
                       [Pred.cqlPred ast] ++ datetimePreds req.datetime,
              orderBy := ord1 ++ ord2 ++ sortSpecOf req.sortby }
    else
      .ok { preds := collectionPreds req.collections ++ spatialPreds ++
                     datetimePreds req.datetime,
            orderBy := ord1 ++ sortSpecOf req.sortby }
  | none =>
    .ok { preds := collectionPreds req.collections ++ spatialPreds ++
                   datetimePreds req.datetime,
          orderBy := ord1 ++ sortSpecOf req.sortby }

/-- The compiled query of `post_search`: when `ids` is truthy every other
selection parameter is ignored (core.py lines 865 to 888) and the sort is
the item id; otherwise the non-ids branch builds the query. -/
def buildQueryPost (cfg : Config) (req : SearchRequest) : Except Err Query :=
  if truthyOpt req.ids then
    .ok { preds := collectionPreds req.collections ++ [Pred.idIn (req.ids.getD [])],
          orderBy := [.col "id" .asc] }
  else buildQueryElse cfg req

/-- The context object of a response page. -/
structure SearchContext where
  returned : Nat
  limit : Nat
  matched : Option Nat
deriving DecidableEq

/-- One response page: the feature rows of the first page and the
context object when the context extension is enabled. -/
structure SearchResponse where
  features : List ItemRow
  context : Option SearchContext

/-- Execution of `post_search` against a table: compile the query, count
the matches when the context extension is enabled (the length of the ids
list on the ids path, otherwise a count sub-query whose failure is
unhandled and aborts the request), then fetch the first page: the
matching rows in the compiled order, truncated to the limit. -/
def runPostSearch (cfg : Config) (oracle : SpatialOracle) (req : SearchRequest)
    (table : List ItemRow) : Except Err SearchResponse :=
  match buildQueryPost cfg req with
  | .error e => .error e
  | .ok q =>
    let hits := table.filter (fun r => q.preds.all (fun p => evalPred oracle r p))
    match (if cfg.contextEnabled then
             (if truthyOpt req.ids then Except.ok (some (req.ids.getD []).length)
              else if cfg.countOk then Except.ok (some hits.length)
              else Except.error Err.countFailure)
           else Except.ok none : Except Err (Option Nat)) with
    | .error e => .error e
    | .ok count =>
      let feats := (sortRows oracle q.orderBy hits).take req.limit
      .ok { features := feats,
            context := if cfg.contextEnabled then
                some { returned := feats.length, limit := req.limit, matched := count }
              else none }

/-- A validated items-endpoint request (`item_collection`).  The filter
parameter arrives as a raw string there; `filterDoc = some d` models a
present filter string deserializing to `d` (every serialized JSON document
is a non-empty, hence truthy, string). -/
structure ItemCollectionRequest where
  collectionId : String
  bbox : Option (List Int) := none
  datetime : Option (List String) := none
  filterDoc : Option Json := none
  bboxCrsSrid : Nat := 4326
  filterCrsSrid : Nat := 4326
  limit : Nat := 10

/-- The compiled query of `item_collection` (core.py lines 334 to 539):
collection equality, bbox clause with unconditional distance ordering,
temporal clause, filter pipeline (valid fields are the intersection over
all registered collections), and the always-appended default sort
`datetime DESC, id`. -/
def buildQueryIC (cfg : Config) (req : ItemCollectionRequest) : Except Err Query :=
  let bboxSrid := if cfg.crsEnabled then req.bboxCrsSrid else 4326
  let filterSrid := if cfg.crsEnabled then req.filterCrsSrid else 4326
  let geomB := geomOfBbox req.bbox
  let spatialPreds := match geomB with
                      | some g => [Pred.spatial g bboxSrid]
                      | none => []
  let ord1 := match geomB with
              | some g => [OrderKey.distToCentroid g bboxSrid]
              | none => []
  match req.filterDoc with
  | some doc =>
    match processFilter (baseQueryables ++ queryablePropsIntersection []) filterSrid doc with
    | .error e => .error e
    | .ok ast =>
      let geomF := match getGeometryFilter ast with
                   | some gj => some (GeoObj.gjson gj)
                   | none => geomB
      let ord2 := match geomF with
                  | some g => [OrderKey.distToCentroid g filterSrid]
                  | none => []
      .ok { preds := [Pred.collEq req.collectionId] ++ spatialPreds ++
                     datetimePreds req.datetime ++ [Pred.cqlPred ast],
            orderBy := ord1 ++ ord2 ++ [.col "datetime" .desc, .col "id" .asc] }
  | none =>
    .ok { preds := [Pred.collEq req.collectionId] ++ spatialPreds ++
                   datetimePreds req.datetime,
          orderBy := ord1 ++ [.col "datetime" .desc, .col "id" .asc] }

/-- Execution of `item_collection`: collection lookup (404 when absent),
query compilation, count sub-query when the context extension is enabled
(unhandled on failure), then the first page. -/
def runItemCollection (cfg : Config) (oracle : SpatialOracle)
    (req : ItemCollectionRequest) (collTable : List String)
    (table : List ItemRow) : Except Err SearchResponse :=
  if collTable.contains req.collectionId then
    match buildQueryIC cfg req with
    | .error e => .error e
    | .ok q =>
      let hits := table.filter (fun r => q.preds.all (fun p => evalPred oracle r p))
      match (if cfg.contextEnabled then
               (if cfg.countOk then Except.ok (some hits.length)
                else Except.error Err.countFailure)
             else Except.ok none : Except Err (Option Nat)) with
      | .error e => .error e
      | .ok count =>
        let feats := (sortRows oracle q.orderBy hits).take req.limit
        .ok { features := feats,
              context := if cfg.contextEnabled then
                  some { returned := feats.length, limit := req.limit, matched := count }
                else none }
  else .error (.notFound ("Collection " ++ req.collectionId ++ " not found"))

/-- Split of a character list at every slash. -/
def splitSlashAux (cur : List Char) : List Char → List (List Char)
  | [] => [cur.reverse]
  | c :: cs =>
    if c = '/' then cur.reverse :: splitSlashAux [] cs
    else splitSlashAux (c :: cur) cs

/-- Split of a string at every slash (`value.split("/")`). -/
def splitSlash (s : String) : List String :=
  (splitSlashAux [] s.toList).map (fun cs => String.mk cs)

/-- Modelled from the spec: the datetime-interval validation performed by
the search request model before `post_search` runs (the validator lives in
the request-model layer outside this package; this repository only pins
its behavior through its test suite).  A two-sided interval whose sides
are both open markers is rejected with
`Double open-ended intervals are not allowed.`; anything else passes
through as the list of its interval parts. -/
def validateDatetimeRaw (s : String) : Except Err (List String) :=
  match splitSlash s with
  | [a, b] =>
    if openMarker a && openMarker b then
      .error (.validation "Double open-ended intervals are not allowed.")
    else .ok [a, b]
  | parts => .ok parts

/-- A search request as it arrives from the wire, with the datetime
parameter still a raw string. -/
structure RawSearchRequest where
  base : SearchRequest
  datetimeRaw : Option String := none

/-- The full search pipeline: request-model validation of the datetime
parameter, then `post_search`.  Identical for the GET and POST shapes,
which build the same request model. -/
def runSearchRaw (cfg : Config) (oracle : SpatialOracle) (raw : RawSearchRequest)
    (table : List ItemRow) : Except Err SearchResponse :=
  match raw.datetimeRaw with
  | some s =>
    (match validateDatetimeRaw s with
     | .error e => .error e
     | .ok parts => runPostSearch cfg oracle { raw.base with datetime := some parts } table)
  | none => runPostSearch cfg oracle { raw.base with datetime := none } table

/-- The CRS object written into item properties. -/
def crsObjFor (crsName : String) : Json :=
  .obj [("type", .str "name"), ("properties", .obj [("name", .str crsName)])]

/-- Serialized item properties (`ItemSerializer.db_to_stac`): the stored
JSONB bag with the indexed `datetime` field written over it. -/
def serializedProps (r : ItemRow) : List (String × Json) :=
  setKey r.props "datetime" (.str r.datetime)

/-- The CRS tagging step of `get_item` (core.py lines 695 to 705): with
the CRS extension enabled, `crs_obj` is assigned only inside the
`"crs" not in resp["properties"]` conditional yet written into the
properties unconditionally afterwards, so when the serialized properties
already carry a `crs` member the read of `crs_obj` is an unbound local
name (`Err.nameErr`). -/
def getItemCrsStep (crsEnabled : Bool) (crsName : String)
    (props : List (String × Json)) : Except Err (List (String × Json)) :=
  if crsEnabled then
    match (if (jlookup props "crs").isNone then some (crsObjFor crsName) else none :
           Option Json) with
    | some v => .ok (setKey props "crs" v)
    | none => .error (.nameErr "crs_obj")
  else .ok props

/-- Model of `get_item` (core.py lines 665 to 707) restricted to the item
lookup and the properties it returns. -/
def getItem (crsEnabled : Bool) (crsName : String) (items : List ItemRow)
    (collectionId itemId : String) : Except Err (List (String × Json)) :=
  match items.find? (fun r => r.collection == collectionId && r.id == itemId) with
  | none => .error (.notFound ("Item " ++ itemId ++ " not found"))
  | some r => getItemCrsStep crsEnabled crsName (serializedProps r)

end StacSql

namespace StacSql

/-- Oracle that declares every geometry intersecting and every distance
zero; used to exercise pipelines whose claims do not depend on geometry
arithmetic. -/
def oracle0 : SpatialOracle := { dist := fun _ _ _ => 0, sects := fun _ _ _ => true }

/-- Oracle whose centroid distance is the first bound of the footprint
rectangle, to make distance ordering observable on concrete rows. -/
def oracleX : SpatialOracle :=
  { dist := fun _ _ fp =>
      match fp with
      | .rect x1 _ _ _ => x1
      | .gjson _ => 0,
    sects := fun _ _ _ => true }

/-- All extensions disabled. -/
def baseCfg : Config := {}

/-- Context extension enabled with a failing count sub-query. -/
def cfg9 : Config := { contextEnabled := true, countOk := false }

/-- A stored row with empty properties. -/
def row0 : ItemRow :=
  { id := "i1", collection := "c1", datetime := "2020-01-01T00:00:00Z",
    footprint := .rect 0 0 1 1, props := [] }

/-- A stored row whose JSONB properties already carry a `crs` member. -/
def c10Row : ItemRow :=
  { id := "i1", collection := "c1", datetime := "2020-01-01T00:00:00Z",
    footprint := .rect 0 0 1 1, props := [("crs", Json.null)] }

/-- Filter document `{"intersects": [{"property": "geometry"}, point]}`. -/
def c1Doc : Json :=
  .obj [("intersects", .arr [.obj [("property", .str "geometry")],
    .obj [("type", .str "Point"), ("coordinates", .arr [.num 1, .num 2])]])]

/-- The point literal of `c1Doc` after CRS tagging with SRID 4326. -/
def c1TaggedPoint : Json :=
  .obj [("type", .str "Point"), ("coordinates", .arr [.num 1, .num 2]),
    ("crs", .num 4326)]

/-- The document `c1Doc` after CRS tagging with SRID 4326. -/
def c1TaggedDoc : Json :=
  .obj [("intersects", .arr [.obj [("property", .str "geometry")], c1TaggedPoint])]

/-- The AST `c1Doc` parses to after tagging. -/
def c1Ast : Ast := .sIntersects (.attrF "geometry") (.geomLit c1TaggedPoint)

/-- A request carrying both an explicit sort and a geometry filter. -/
def c1Req : SearchRequest :=
  { sortby := some [⟨"gsd", .asc⟩], filter := some c1Doc }

/-- The query `c1Req` compiles to. -/
def c1Query : Query :=
  { preds := [.cqlPred c1Ast],
    orderBy := [.distToCentroid (.gjson c1TaggedPoint) 4326,
                .col "gsd" .asc, .col "id" .asc] }

/-- Row with small `gsd` and far footprint. -/
def c1RowA : ItemRow :=
  { id := "a", collection := "c1", datetime := "2020-01-01T00:00:00Z",
    footprint := .rect 5 0 6 1, props := [("gsd", .num 1)] }

/-- Row with larger `gsd` and near footprint. -/
def c1RowB : ItemRow :=
  { id := "b", collection := "c1", datetime := "2020-01-02T00:00:00Z",
    footprint := .rect 1 0 2 1, props := [("gsd", .num 2)] }

/-- Two-row table for the ordering counterexample. -/
def c1Table : List ItemRow := [c1RowA, c1RowB]

/-- A request with an explicit sort, a bbox, and no filter. -/
def c1wReq : SearchRequest :=
  { sortby := some [⟨"gsd", .asc⟩], bbox := some [0, 0, 1, 1] }

/-- The query `c1wReq` compiles to. -/
def c1wQuery : Query :=
  { preds := [.spatial (.rect 0 0 1 1) 4326],
    orderBy := [.col "gsd" .asc, .col "id" .asc] }

/-- An ids request that also carries an explicit sort. -/
def c2Req : SearchRequest :=
  { ids := some ["a", "b"], sortby := some [⟨"datetime", .desc⟩] }

/-- Row `a`, the chronologically earlier one. -/
def c2RowA : ItemRow :=
  { id := "a", collection := "c1", datetime := "2020-01-01T00:00:00Z",
    footprint := .rect 0 0 1 1, props := [] }

/-- Row `b`, the chronologically later one. -/
def c2RowB : ItemRow :=
  { id := "b", collection := "c1", datetime := "2021-01-01T00:00:00Z",
    footprint := .rect 0 0 1 1, props := [] }

/-- Two-row table for the ids ordering counterexample. -/
def c2Table : List ItemRow := [c2RowA, c2RowB]

/-- An ids request with no other parameters. -/
def c2wReq : SearchRequest := { ids := some ["x"] }

/-- An items-endpoint request whose filter string deserializes to the
empty document. -/
def c4ICReq : ItemCollectionRequest :=
  { collectionId := "c1", filterDoc := some (.obj []) }

/-- Filter document with a property reference inside the `lower` bound of
a `between` node. -/
def c5Doc : Json :=
  .obj [("between", .obj [("value", .obj [("property", .str "gsd")]),
    ("lower", .obj [("property", .str "invalid-field")]), ("upper", .num 50)])]

/-- The AST `c5Doc` parses to. -/
def c5Ast : Ast :=
  .between (.attrF "gsd") (.attrF "invalid-field") (.litV (.num 50))

/-- A request carrying `c5Doc` as its filter. -/
def c5Req : SearchRequest := { filter := some c5Doc }

/-- The field-validation example filter of the specification:
`{"eq": [{"property": "invalid-field"}, 50]}`. -/
def c5wDoc : Json :=
  .obj [("eq", .arr [.obj [("property", .str "invalid-field")], .num 50])]

/-- The AST `c5wDoc` parses to. -/
def c5wAst : Ast := .cmpE .eq (.attrF "invalid-field") (.litV (.num 50))

/-- A GeoJSON point. -/
def c6Point : Json :=
  .obj [("type", .str "Point"), ("coordinates", .arr [.num 1, .num 2])]

/-- A GeometryCollection holding `c6Point` as its only member. -/
def c6GColl : Json :=
  .obj [("type", .str "GeometryCollection"), ("geometries", .arr [c6Point])]

/-- Filter document whose geometry literal is a GeometryCollection. -/
def c6Doc : Json :=
  .obj [("intersects", .arr [.obj [("property", .str "geometry")], c6GColl])]

/-- Member list of a geometry object without a `crs` member. -/
def c6wKvs : List (String × Json) :=
  [("type", .str "Point"), ("coordinates", .arr [.num 3, .num 4])]

/-- A crs-free document embedding a geometry object. -/
def c6wDoc : Json := .obj [("a", .obj c6wKvs), ("b", .arr [.num 7])]

/-- The query the default request compiles to. -/
def defaultQuery : Query :=
  { preds := [], orderBy := [.col "datetime" .desc, .col "id" .asc] }

end StacSql

namespace StacSql

/-- C10: in `get_item` with the CRS extension enabled, `crs_obj` is
assigned only when the serialized properties do not already contain a
`crs` key, yet it is read unconditionally afterwards; for every item
whose serialized properties already include `crs`, `get_item` aborts
with an unhandled name error instead of returning the item. -/
theorem c10_get_item_crs_unbound (crsName : String) (items : List ItemRow)
    (cid iid : String) (r : ItemRow)
    (hfind : items.find? (fun r0 => r0.collection == cid && r0.id == iid) = some r)
    (hcrs : (jlookup (serializedProps r) "crs").isSome = true) :
    getItem true crsName items cid iid = .error (.nameErr "crs_obj") := by
  unfold getItem
  rw [hfind]
  have h2 : (jlookup (serializedProps r) "crs").isNone = false := by
    cases h : jlookup (serializedProps r) "crs" <;> simp [h] at hcrs ⊢
  simp [getItemCrsStep, h2]

/-- C10 witness: a stored `crs` property makes `get_item` fail. -/
theorem c10_witness :
    getItem true "OGC:CRS84" [c10Row] "c1" "i1" = .error (.nameErr "crs_obj") :=
  c10_get_item_crs_unbound "OGC:CRS84" [c10Row] "c1" "i1" c10Row rfl rfl

/-- C3: a search whose datetime parameter is a double-open interval is
rejected by the request-model validation with
`Double open-ended intervals are not allowed.` before any storage access
(the outcome does not depend on the table), never executed as an
unconstrained temporal query. -/
theorem c3_double_open_rejected (cfg : Config) (oracle : SpatialOracle)
    (raw : RawSearchRequest) (table : List ItemRow) (s a b : String)
    (hdt : raw.datetimeRaw = some s)
    (hsplit : splitSlash s = [a, b])
    (ha : openMarker a = true) (hb : openMarker b = true) :
    runSearchRaw cfg oracle raw table =
      .error (.validation "Double open-ended intervals are not allowed.") := by
  have hv : validateDatetimeRaw s =
      .error (.validation "Double open-ended intervals are not allowed.") := by
    unfold validateDatetimeRaw
    rw [hsplit]
    simp [ha, hb]
  unfold runSearchRaw
  rw [hdt]
  simp only [hv]

/-- C3 witness: the interval `/` is rejected. -/
theorem c3_witness :
    runSearchRaw baseCfg oracle0 { base := {}, datetimeRaw := some "/" } [] =
      .error (.validation "Double open-ended intervals are not allowed.") :=
  c3_double_open_rejected baseCfg oracle0 _ [] "/" "" "" rfl (by decide) rfl rfl

/-- C9 amended: when the context extension is enabled on a non-ids
search, a failing count sub-query aborts the whole request (the count
runs before the page fetch and its failure is unhandled); the matched
count is never silently absent. -/
theorem c9_count_failure_aborts (cfg : Config) (oracle : SpatialOracle)
    (req : SearchRequest) (table : List ItemRow) (q : Query)
    (hctx : cfg.contextEnabled = true) (hcnt : cfg.countOk = false)
    (hids : truthyOpt req.ids = false)
    (hq : buildQueryPost cfg req = .ok q) :
    runPostSearch cfg oracle req table = .error Err.countFailure := by
  unfold runPostSearch
  rw [hq]
  simp [hctx, hcnt, hids]

/-- C9 counterexample: with the context extension enabled and the count
sub-query failing, the search fails entirely instead of returning the
page with an absent count; flipping only the count health returns the
very page the claim expected to survive. -/
theorem c9_counterexample :
    runPostSearch cfg9 oracle0 {} [row0] = .error Err.countFailure ∧
    runPostSearch { cfg9 with countOk := true } oracle0 {} [row0] =
      .ok { features := [row0],
            context := some { returned := 1, limit := 10, matched := some 1 } } := by
  constructor <;> rfl

/-- C9 witness: concrete instance of the aborted request. -/
theorem c9_witness : runPostSearch cfg9 oracle0 {} [] = .error Err.countFailure :=
  c9_count_failure_aborts cfg9 oracle0 {} [] defaultQuery rfl rfl rfl rfl

/-- C8: a 6-element bbox compiles and executes identically to its
2-element-dropped 2D projection, on both the search and the items
endpoint; the z bounds are dropped, not rejected. -/
theorem c8_bbox_3d_reduces_to_2d (cfg : Config) (oracle : SpatialOracle)
    (req : SearchRequest) (table : List ItemRow)
    (icreq : ItemCollectionRequest) (collTable : List String)
    (x1 y1 z1 x2 y2 z2 : Int) :
    runPostSearch cfg oracle { req with bbox := some [x1, y1, z1, x2, y2, z2] } table =
      runPostSearch cfg oracle { req with bbox := some [x1, y1, x2, y2] } table ∧
    runItemCollection cfg oracle { icreq with bbox := some [x1, y1, z1, x2, y2, z2] }
        collTable table =
      runItemCollection cfg oracle { icreq with bbox := some [x1, y1, x2, y2] }
        collTable table := by
  constructor <;> rfl

/-- C4 amended: on the search endpoints the empty filter document is
falsy and dropped, so the search behaves exactly as without the filter;
on the items endpoint the filter arrives as a raw string, so a present
empty document reaches the parser, yields no node, and is rejected with
a parse error. -/
theorem c4_empty_filter (cfg : Config) (oracle : SpatialOracle)
    (req : SearchRequest) (table : List ItemRow)
    (icreq : ItemCollectionRequest) (collTable : List String)
    (hic : icreq.filterDoc = some (.obj []))
    (hcoll : collTable.contains icreq.collectionId = true) :
    runPostSearch cfg oracle { req with filter := some (.obj []) } table =
      runPostSearch cfg oracle { req with filter := none } table ∧
    runItemCollection cfg oracle icreq collTable table =
      .error (.parse "The input cql-json could not be parsed") := by
  constructor
  · rfl
  · unfold runItemCollection
    rw [hcoll]
    have hpf : processFilter (baseQueryables ++ queryablePropsIntersection [])
        (if cfg.crsEnabled then icreq.filterCrsSrid else 4326) (Json.obj []) =
        .error (.parse "The input cql-json could not be parsed") := by
      unfold processFilter
      have ht : addFilterCrs (Int.ofNat (if cfg.crsEnabled then icreq.filterCrsSrid else 4326))
          (Json.obj []) = Json.obj [] := by
        simp [addFilterCrs, addFilterCrsKvs, isGeomObjKvs, jlookup]
      rw [ht]
      rfl
    unfold buildQueryIC
    simp only [hic, hpf]
    simp

/-- C4 witness: concrete empty-filter request on both endpoints. -/
theorem c4_witness :
    runPostSearch baseCfg oracle0 { filter := some (.obj []) } [] =
      runPostSearch baseCfg oracle0 {} [] ∧
    runItemCollection baseCfg oracle0 c4ICReq ["c1"] [] =
      .error (.parse "The input cql-json could not be parsed") :=
  c4_empty_filter baseCfg oracle0 {} [] c4ICReq ["c1"] rfl rfl

/-- C4 counterexample: the items endpoint rejects the empty filter as an
error while the same request without the filter succeeds, contradicting
the claim that an empty filter always compiles to an always-true
predicate. -/
theorem c4_counterexample :
    runItemCollection baseCfg oracle0 c4ICReq ["c1"] [row0] =
      .error (.parse "The input cql-json could not be parsed") ∧
    runItemCollection baseCfg oracle0 { c4ICReq with filterDoc := none } ["c1"] [row0] =
      .ok { features := [row0], context := none } := by
  refine ⟨(c4_empty_filter baseCfg oracle0 {} [] c4ICReq ["c1"] rfl rfl).2, ?_⟩
  rfl

end StacSql

namespace StacSql

/-- Characters with equal codepoints are equal. -/
theorem char_toNat_inj {a b : Char} (h : a.toNat = b.toNat) : a = b := by
  apply Char.ext
  apply UInt32.ext
  exact h

/-- Character lists comparing `eq` are equal. -/
theorem cmpCharList_eq {x : List Char} : ∀ {y}, cmpCharList x y = .eq → x = y := by
  induction x with
  | nil =>
    intro y h
    cases y with
    | nil => rfl
    | cons b bs => simp [cmpCharList] at h
  | cons a as ih =>
    intro y h
    cases y with
    | nil => simp [cmpCharList] at h
    | cons b bs =>
      cases hc : compare a.toNat b.toNat with
      | eq =>
        simp only [cmpCharList, hc] at h
        have hab : a = b := char_toNat_inj (Nat.compare_eq_eq.mp hc)
        rw [hab, ih h]
      | lt => simp [cmpCharList, hc] at h
      | gt => simp [cmpCharList, hc] at h

/-- Strings comparing `eq` are equal. -/
theorem cmpStr_eq {a b : String} (h : cmpStr a b = .eq) : a = b :=
  String.toList_inj.mp (cmpCharList_eq h)

/-- The last element of an appended list is the last element of a
non-empty right part. -/
theorem getLast?_append_of_right {α : Type} {l2 : List α} (xs : List α) {k : α}
    (h : l2.getLast? = some k) : (xs ++ l2).getLast? = some k := by
  rw [List.getLast?_append, h]
  rfl

/-- The sort block always ends with the ascending id key. -/
theorem sortSpecOf_getLast (sb : Option (List SortField)) :
    (sortSpecOf sb).getLast? = some (.col "id" .asc) := by
  cases sb with
  | none => rfl
  | some l =>
    cases l with
    | nil => rfl
    | cons s ss =>
      unfold sortSpecOf
      exact getLast?_append_of_right _ rfl

/-- C7: on every execution path of both endpoints the compiled sort
specification ends with the ascending item id key, and the induced
lexicographic row comparison is total with respect to ids: rows that
compare `eq` under such a key list have equal ids. -/
theorem c7_sort_totality :
    (∀ (cfg : Config) (req : SearchRequest) (q : Query),
       buildQueryPost cfg req = .ok q →
       q.orderBy.getLast? = some (.col "id" .asc)) ∧
    (∀ (cfg : Config) (req : ItemCollectionRequest) (q : Query),
       buildQueryIC cfg req = .ok q →
       q.orderBy.getLast? = some (.col "id" .asc)) ∧
    (∀ (oracle : SpatialOracle) (ks : List OrderKey) (a b : ItemRow),
       ks.getLast? = some (.col "id" .asc) →
       cmpByKeys oracle ks a b = .eq → a.id = b.id) := by
  refine ⟨?_, ?_, ?_⟩
  · intro cfg req q hq
    unfold buildQueryPost at hq
    by_cases hids : truthyOpt req.ids = true
    · simp only [hids, if_pos] at hq
      injection hq with h
      subst h
      rfl
    · simp only [hids, if_neg, Bool.not_eq_true] at hq
      simp only [buildQueryElse] at hq
      repeat split at hq
      all_goals first
        | (cases hq
           exact getLast?_append_of_right _ (sortSpecOf_getLast _))
        | cases hq
  · intro cfg req q hq
    simp only [buildQueryIC] at hq
    repeat split at hq
    all_goals first
      | (cases hq
         exact getLast?_append_of_right _ rfl)
      | cases hq
  · intro oracle ks
    induction ks with
    | nil =>
      intro a b hlast
      simp at hlast
    | cons k rest ih =>
      intro a b hlast heq
      unfold cmpByKeys at heq
      cases hc : cmpByKey oracle k a b with
      | eq =>
        simp only [hc] at heq
        cases rest with
        | nil =>
          have hk : k = OrderKey.col "id" .asc := by simpa using hlast
          subst hk
          have hs : cmpStr a.id b.id = .eq := by
            simpa [cmpByKey, dirApply, rowValue, cmpJson] using hc
          exact cmpStr_eq hs
        | cons k2 rest2 =>
          exact ih a b (by simpa using hlast) heq
      | lt => simp [hc] at heq
      | gt => simp [hc] at heq

/-- C7 witness: the default request compiles to the default chronological
sort, which ends with the id key. -/
theorem c7_witness :
    buildQueryPost baseCfg {} = .ok defaultQuery ∧
    defaultQuery.orderBy.getLast? = some (.col "id" .asc) :=
  ⟨rfl, c7_sort_totality.1 baseCfg {} defaultQuery rfl⟩

end StacSql

namespace StacSql

/-- C1 amended: on a non-ids search with an explicit non-empty `sortby`,
the bbox/intersects distance ordering is suppressed and, when the request
carries no truthy filter, the results are ordered exactly by the
requested fields followed by the id tiebreak; but when a filter is
processed, its distance key (from the filter geometry or the geometry
carried over from bbox/intersects, when either exists) is prepended
before the requested sort fields even though the sort is explicit. -/
theorem c1_explicit_sort (cfg : Config) (req : SearchRequest) (s : SortField)
    (ss : List SortField) (q : Query)
    (hids : truthyOpt req.ids = false)
    (hsort : req.sortby = some (s :: ss))
    (hq : buildQueryPost cfg req = .ok q) :
    ((match req.filter with
      | some d => truthyJson d
      | none => false) = false →
      q.orderBy = ((s :: ss).map sortKeyOf) ++ [OrderKey.col "id" .asc]) ∧
    (∃ pre, q.orderBy = pre ++ (((s :: ss).map sortKeyOf) ++ [OrderKey.col "id" .asc]) ∧
      (pre = [] ∨ ∃ g srid, pre = [OrderKey.distToCentroid g srid])) := by
  have hids' : ¬ truthyOpt req.ids = true := by simp [hids]
  unfold buildQueryPost at hq
  simp only [hids', if_neg, Bool.not_eq_true] at hq
  simp only [buildQueryElse] at hq
  cases hgB : effectiveGeom req.intersects req.bbox with
  | none =>
    cases hfil : req.filter with
    | none =>
      simp only [hgB, hfil, hsort] at hq
      cases hq
      refine ⟨fun _ => by simp [sortSpecOf, hsort], [], by simp [sortSpecOf, hsort], Or.inl rfl⟩
    | some doc =>
      cases htr : truthyJson doc with
      | false =>
        simp only [hgB, hfil, htr, if_neg, Bool.false_eq_true, if_false] at hq
        cases hq
        refine ⟨fun _ => by simp [sortSpecOf, hsort], [], by simp [sortSpecOf, hsort], Or.inl rfl⟩
      | true =>
        simp only [hgB, hfil, htr, if_pos] at hq
        cases hpf : processFilter (validFieldsPost req.collections)
            (if cfg.filterEnabled = true then req.filterCrsSrid else 4326) doc with
        | error e => rw [hpf] at hq; cases hq
        | ok ast =>
          rw [hpf] at hq
          cases hgF : getGeometryFilter ast with
          | none =>
            simp only [hgF] at hq
            cases hq
            refine ⟨fun hc => by simp [hfil, htr] at hc, [], by simp [sortSpecOf, hsort], Or.inl rfl⟩
          | some gj =>
            simp only [hgF] at hq
            cases hq
            refine ⟨fun hc => by simp [hfil, htr] at hc,
              [OrderKey.distToCentroid (.gjson gj)
                (if cfg.filterEnabled = true then req.filterCrsSrid else 4326)],
              by simp [sortSpecOf, hsort], Or.inr ⟨_, _, rfl⟩⟩
  | some g0 =>
    cases hfil : req.filter with
    | none =>
      simp only [hgB, hfil, hsort] at hq
      cases hq
      refine ⟨fun _ => by simp [sortSpecOf, hsort], [], by simp [sortSpecOf, hsort], Or.inl rfl⟩
    | some doc =>
      cases htr : truthyJson doc with
      | false =>
        simp only [hgB, hfil, htr, hsort, if_neg, Bool.false_eq_true, if_false] at hq
        cases hq
        refine ⟨fun _ => by simp [sortSpecOf, hsort], [], by simp [sortSpecOf, hsort], Or.inl rfl⟩
      | true =>
        simp only [hgB, hfil, htr, hsort, if_pos] at hq
        cases hpf : processFilter (validFieldsPost req.collections)
            (if cfg.filterEnabled = true then req.filterCrsSrid else 4326) doc with
        | error e => rw [hpf] at hq; cases hq
        | ok ast =>
          rw [hpf] at hq
          cases hgF : getGeometryFilter ast with
          | none =>
            simp only [hgF] at hq
            cases hq
            refine ⟨fun hc => by simp [hfil, htr] at hc,
              [OrderKey.distToCentroid g0
                (if cfg.filterEnabled = true then req.filterCrsSrid else 4326)],
              by simp [sortSpecOf, hsort], Or.inr ⟨_, _, rfl⟩⟩
          | some gj =>
            simp only [hgF] at hq
            cases hq
            refine ⟨fun hc => by simp [hfil, htr] at hc,
              [OrderKey.distToCentroid (.gjson gj)
                (if cfg.filterEnabled = true then req.filterCrsSrid else 4326)],
              by simp [sortSpecOf, hsort], Or.inr ⟨_, _, rfl⟩⟩

end StacSql

namespace StacSql

/-- C1 counterexample: a request with explicit sortby `gsd asc` and a CQL
filter containing a geometry literal compiles to an order specification
headed by the distance key, not the requested fields alone, and the
executed page comes back in distance order, not in the requested
`gsd`-ascending order. -/
theorem c1_counterexample :
    (buildQueryPost baseCfg c1Req).map (fun q0 => q0.orderBy.map keyShape) =
      .ok [KeyShape.distS, .colS "gsd" .asc, .colS "id" .asc] ∧
    ([KeyShape.distS, .colS "gsd" .asc, .colS "id" .asc] : List KeyShape) ≠
      [.colS "gsd" .asc, .colS "id" .asc] ∧
    (runPostSearch baseCfg oracleX c1Req c1Table).map
        (fun p => p.features.map ItemRow.id) = .ok ["b", "a"] ∧
    (sortRows oracleX (sortSpecOf c1Req.sortby) c1Table).map ItemRow.id =
      ["a", "b"] := by
  have hsz : jsize c1TaggedDoc = 24 := by
    simp [c1TaggedDoc, c1TaggedPoint, jsize, jsizeList, jsizeKvs]
  have hparse : parseDoc c1TaggedDoc = .ok (some c1Ast) := by
    unfold parseDoc
    rw [show c1TaggedDoc = Json.obj [("intersects",
      Json.arr [Json.obj [("property", Json.str "geometry")], c1TaggedPoint])] from rfl]
    rw [show jsize (Json.obj [("intersects",
      Json.arr [Json.obj [("property", Json.str "geometry")], c1TaggedPoint])]) = 24 from hsz]
    rfl
  have htag : addFilterCrs (Int.ofNat 4326) c1Doc = c1TaggedDoc := by
    simp [c1Doc, c1TaggedDoc, c1TaggedPoint, addFilterCrs, addFilterCrsKvs,
      addFilterCrsList, isGeomObjKvs, jlookup, isGeomType, setKey]
  have hpf : processFilter (validFieldsPost none) 4326 c1Doc = .ok c1Ast := by
    unfold processFilter
    rw [htag]
    simp only [hparse]
    rfl
  have hb : buildQueryPost baseCfg c1Req = .ok c1Query := by
    have hpf2 : processFilter (validFieldsPost c1Req.collections)
        (if baseCfg.filterEnabled = true then c1Req.filterCrsSrid else 4326) c1Doc =
        .ok c1Ast := hpf
    unfold buildQueryPost buildQueryElse
    simp only [hpf2]
    rfl
  refine ⟨?_, by decide, ?_, by decide⟩
  · rw [hb]
    rfl
  · unfold runPostSearch
    rw [hb]
    rfl

/-- C1 witness: with an explicit sort and no filter, a bbox request is
ordered exactly by the requested field with the id tiebreak. -/
theorem c1_witness :
    buildQueryPost baseCfg c1wReq = .ok c1wQuery ∧
    c1wQuery.orderBy = [OrderKey.col "gsd" .asc, OrderKey.col "id" .asc] := by
  refine ⟨rfl, ?_⟩
  have h := c1_explicit_sort baseCfg c1wReq ⟨"gsd", .asc⟩ [] c1wQuery rfl rfl rfl
  exact h.1 rfl

end StacSql

namespace StacSql

/-- Membership in an insertion step. -/
theorem mem_insortBy {α : Type} (le : α → α → Bool) (x : α) :
    ∀ (l : List α) (z : α), z ∈ insortBy le x l ↔ z = x ∨ z ∈ l := by
  intro l
  induction l with
  | nil => intro z; simp [insortBy]
  | cons y ys ih =>
    intro z
    unfold insortBy
    by_cases hle : le x y = true
    · simp [hle]
      try tauto
    · simp [hle, ih]
      try tauto

/-- Membership is preserved by the insertion sort. -/
theorem mem_sortByLe {α : Type} (le : α → α → Bool) :
    ∀ (l : List α) (z : α), z ∈ sortByLe le l ↔ z ∈ l := by
  intro l
  induction l with
  | nil => intro z; simp [sortByLe]
  | cons y ys ih =>
    intro z
    show z ∈ insortBy le y (sortByLe le ys) ↔ _
    rw [mem_insortBy]
    simp [ih]

/-- Insertion preserves pairwise order for a total transitive relation. -/
theorem pairwise_insortBy {α : Type} {le : α → α → Bool}
    (htot : ∀ a b, le a b = true ∨ le b a = true)
    (htrans : ∀ a b c, le a b = true → le b c = true → le a c = true)
    (x : α) :
    ∀ (l : List α), l.Pairwise (fun a b => le a b = true) →
      (insortBy le x l).Pairwise (fun a b => le a b = true) := by
  intro l
  induction l with
  | nil => intro _; simp [insortBy]
  | cons y ys ih =>
    intro h
    rw [List.pairwise_cons] at h
    obtain ⟨h1, h2⟩ := h
    unfold insortBy
    by_cases hle : le x y = true
    · rw [if_pos hle]
      rw [List.pairwise_cons]
      refine ⟨?_, List.Pairwise.cons h1 h2⟩
      intro z hz
      rcases List.mem_cons.mp hz with hzy | hzys
      · rw [hzy]; exact hle
      · exact htrans x y z hle (h1 z hzys)
    · rw [if_neg hle]
      rw [List.pairwise_cons]
      constructor
      · intro z hz
        rcases (mem_insortBy le x ys z).mp hz with hzx | hzys
        · rw [hzx]
          rcases htot x y with h' | h'
          · exact absurd h' hle
          · exact h'
        · exact h1 z hzys
      · exact ih h2

/-- The insertion sort is pairwise ordered for a total transitive
relation. -/
theorem pairwise_sortByLe {α : Type} {le : α → α → Bool}
    (htot : ∀ a b, le a b = true ∨ le b a = true)
    (htrans : ∀ a b c, le a b = true → le b c = true → le a c = true) :
    ∀ (l : List α), (sortByLe le l).Pairwise (fun a b => le a b = true) := by
  intro l
  induction l with
  | nil => simp [sortByLe]
  | cons y ys ih => exact pairwise_insortBy htot htrans y _ ih

/-- Codepoint comparison is antisymmetric under swap. -/
theorem cmpCharList_swap {x : List Char} :
    ∀ {y}, cmpCharList y x = (cmpCharList x y).swap := by
  induction x with
  | nil =>
    intro y
    cases y <;> simp [cmpCharList, Ordering.swap]
  | cons a as ih =>
    intro y
    cases y with
    | nil => simp [cmpCharList, Ordering.swap]
    | cons b bs =>
      show cmpCharList (b :: bs) (a :: as) = _
      unfold cmpCharList
      cases h : compare a.toNat b.toNat with
      | eq =>
        have h' : compare b.toNat a.toNat = Ordering.eq := by
          rw [← Nat.compare_swap, h]; rfl
        rw [h']
        simpa using ih
      | lt =>
        have h' : compare b.toNat a.toNat = Ordering.gt := by
          rw [← Nat.compare_swap, h]; rfl
        rw [h']
        rfl
      | gt =>
        have h' : compare b.toNat a.toNat = Ordering.lt := by
          rw [← Nat.compare_swap, h]; rfl
        rw [h']
        rfl

/-- Codepoint comparison in its non-strict form is transitive. -/
theorem cmpCharList_le_trans {x : List Char} :
    ∀ {y z}, cmpCharList x y ≠ .gt → cmpCharList y z ≠ .gt →
      cmpCharList x z ≠ .gt := by
  induction x with
  | nil =>
    intro y z _ _
    cases z <;> simp [cmpCharList]
  | cons a as ih =>
    intro y z h1 h2
    cases y with
    | nil => simp [cmpCharList] at h1
    | cons b bs =>
      cases z with
      | nil => simp [cmpCharList] at h2
      | cons c cs =>
        simp only [cmpCharList] at h1 h2 ⊢
        cases hab : compare a.toNat b.toNat with
        | gt => rw [hab] at h1; simp at h1
        | eq =>
          rw [hab] at h1
          cases hbc : compare b.toNat c.toNat with
          | gt => rw [hbc] at h2; simp at h2
          | eq =>
            rw [hbc] at h2
            have hac : compare a.toNat c.toNat = Ordering.eq := by
              rw [Nat.compare_eq_eq] at hab hbc ⊢
              omega
            rw [hac]
            exact ih h1 h2
          | lt =>
            have hac : compare a.toNat c.toNat = Ordering.lt := by
              rw [Nat.compare_eq_eq] at hab
              rw [Nat.compare_eq_lt] at hbc ⊢
              omega
            rw [hac]
            simp
        | lt =>
          cases hbc : compare b.toNat c.toNat with
          | gt => rw [hbc] at h2; simp at h2
          | eq =>
            have hac : compare a.toNat c.toNat = Ordering.lt := by
              rw [Nat.compare_eq_eq] at hbc
              rw [Nat.compare_eq_lt] at hab ⊢
              omega
            rw [hac]
            simp
          | lt =>
            have hac : compare a.toNat c.toNat = Ordering.lt := by
              rw [Nat.compare_eq_lt] at hab hbc ⊢
              omega
            rw [hac]
            simp

/-- The row order induced by the single ascending id key is the string
order of the ids. -/
theorem rowLe_id (oracle : SpatialOracle) (a b : ItemRow) :
    rowLe oracle [.col "id" .asc] a b = (cmpStr a.id b.id != Ordering.gt) := by
  unfold rowLe cmpByKeys cmpByKey
  cases h : cmpJson (rowValue a "id") (rowValue b "id") with
  | eq =>
    simp only [dirApply, h]
    have : cmpStr a.id b.id = Ordering.eq := by
      simpa [rowValue, cmpJson] using h
    simp [cmpByKeys, this]
  | lt =>
    simp only [dirApply, h]
    have : cmpStr a.id b.id = Ordering.lt := by
      simpa [rowValue, cmpJson] using h
    simp [this]
  | gt =>
    simp only [dirApply, h]
    have : cmpStr a.id b.id = Ordering.gt := by
      simpa [rowValue, cmpJson] using h
    simp [this]

end StacSql

namespace StacSql

/-- Boolean and propositional disequality with `gt` agree. -/
theorem bne_gt_iff {o : Ordering} : (o != Ordering.gt) = true ↔ o ≠ Ordering.gt := by
  cases o <;> decide

/-- C2 amended: when `ids` is non-empty, row selection ignores bbox,
intersects, datetime, filter and also the explicit sortby entirely
(collections still scope the ids); the returned page is the id-filtered
table in ascending id order truncated to the limit, every returned
feature has a requested id, and the order is always id ascending: an
explicit sortby does not override it. -/
theorem c2_ids_short_circuit (cfg : Config) (oracle : SpatialOracle)
    (req : SearchRequest) (table : List ItemRow) (i : String) (is0 : List String)
    (hids : req.ids = some (i :: is0)) :
    (∀ b g dt f sb, runPostSearch cfg oracle
        { req with
            bbox := b, intersects := g, datetime := dt, filter := f,
            sortby := sb } table = runPostSearch cfg oracle req table) ∧
    (∃ resp, runPostSearch cfg oracle req table = .ok resp ∧
      resp.features = (sortRows oracle [.col "id" .asc] (table.filter (fun r =>
        (collectionPreds req.collections ++ [Pred.idIn (i :: is0)]).all
          (fun p => evalPred oracle r p)))).take req.limit ∧
      resp.features.Pairwise (fun a b => cmpStr a.id b.id ≠ .gt) ∧
      (∀ r ∈ resp.features, (i :: is0).contains r.id = true)) := by
  have htot : ∀ a b : ItemRow, rowLe oracle [.col "id" .asc] a b = true ∨
      rowLe oracle [.col "id" .asc] b a = true := by
    intro a b
    have hsw : cmpStr b.id a.id = (cmpStr a.id b.id).swap := cmpCharList_swap
    rw [rowLe_id, rowLe_id, hsw]
    rcases h : cmpStr a.id b.id <;> decide
  have htrans : ∀ a b c : ItemRow, rowLe oracle [.col "id" .asc] a b = true →
      rowLe oracle [.col "id" .asc] b c = true →
      rowLe oracle [.col "id" .asc] a c = true := by
    intro a b c h1 h2
    rw [rowLe_id, bne_gt_iff] at h1 h2 ⊢
    exact cmpCharList_le_trans h1 h2
  constructor
  · intro b g dt f sb
    unfold runPostSearch buildQueryPost
    simp only [hids, truthyOpt, reduceIte]
  · cases hctx : cfg.contextEnabled with
    | false =>
      unfold runPostSearch buildQueryPost
      simp only [hids, hctx, truthyOpt, reduceIte, Option.getD]
      refine ⟨_, rfl, rfl, ?_, ?_⟩
      · have hp := pairwise_sortByLe htot htrans (table.filter (fun r =>
          (collectionPreds req.collections ++ [Pred.idIn (i :: is0)]).all
            (fun p => evalPred oracle r p)))
        have hp2 := hp.imp (fun hab => by
          rw [rowLe_id, bne_gt_iff] at hab
          exact hab)
        exact hp2.sublist (List.take_sublist _ _) |>.imp id
      · intro r hr
        have hr2 := (List.take_sublist _ _).subset hr
        have hr3 := (mem_sortByLe _ _ _).mp hr2
        have hr4 := (List.mem_filter.mp hr3).2
        rw [List.all_eq_true] at hr4
        have := hr4 (Pred.idIn (i :: is0)) (by simp)
        simpa [evalPred] using this
    | true =>
      unfold runPostSearch buildQueryPost
      simp only [hids, hctx, truthyOpt, reduceIte, Option.getD]
      refine ⟨_, rfl, rfl, ?_, ?_⟩
      · have hp := pairwise_sortByLe htot htrans (table.filter (fun r =>
          (collectionPreds req.collections ++ [Pred.idIn (i :: is0)]).all
            (fun p => evalPred oracle r p)))
        have hp2 := hp.imp (fun hab => by
          rw [rowLe_id, bne_gt_iff] at hab
          exact hab)
        exact hp2.sublist (List.take_sublist _ _) |>.imp id
      · intro r hr
        have hr2 := (List.take_sublist _ _).subset hr
        have hr3 := (mem_sortByLe _ _ _).mp hr2
        have hr4 := (List.mem_filter.mp hr3).2
        rw [List.all_eq_true] at hr4
        have := hr4 (Pred.idIn (i :: is0)) (by simp)
        simpa [evalPred] using this

/-- C2 counterexample: an ids request with explicit sortby
`datetime desc` still comes back id-ascending, not in the requested
order. -/
theorem c2_counterexample :
    (runPostSearch baseCfg oracle0 c2Req c2Table).map
        (fun p => p.features.map ItemRow.id) = .ok ["a", "b"] ∧
    (sortRows oracle0 (sortSpecOf c2Req.sortby) c2Table).map ItemRow.id =
      ["b", "a"] ∧
    (["a", "b"] : List String) ≠ ["b", "a"] :=
  ⟨rfl, rfl, by decide⟩

/-- C2 witness: an ids request is insensitive to bbox and sortby. -/
theorem c2_witness :
    runPostSearch baseCfg oracle0
        { c2wReq with
            bbox := some [0, 0, 1, 1], intersects := none,
            datetime := none, filter := none,
            sortby := some [⟨"datetime", .desc⟩] } [] =
      runPostSearch baseCfg oracle0 c2wReq [] :=
  (c2_ids_short_circuit baseCfg oracle0 c2wReq [] "x" [] rfl).1
    (some [0, 0, 1, 1]) none none none (some [⟨"datetime", .desc⟩])

end StacSql

namespace StacSql

/-- C5 amended: field validation inspects only the `lhs`, `rhs` and
`sub_node` positions of the expression tree; whenever the collected field
set contains a name outside the valid set, compilation aborts, before any
storage access, with `Cannot search on field: X` naming an offending
field; references occurring only in the `low`/`high` bounds of a
`between` node escape the collection and hence this validation. -/
theorem c5_unknown_field_rejected (valid : List String) (srid : Nat)
    (doc : Json) (ast : Ast)
    (hparse : parseDoc (addFilterCrs (Int.ofNat srid) doc) = .ok (some ast))
    (hbad : (dedupFirst [] (collectFields ast)).any
      (fun f => !valid.contains f) = true) :
    ∃ f, processFilter valid srid doc =
        .error (.invalidField ("Cannot search on field: " ++ f)) ∧
      valid.contains f = false := by
  cases hfind : (dedupFirst [] (collectFields ast)).find?
      (fun f => !valid.contains f) with
  | none =>
    exfalso
    rw [List.any_eq_true] at hbad
    obtain ⟨f, hmem, hf⟩ := hbad
    rw [List.find?_eq_none] at hfind
    exact absurd hf (by simpa using hfind f hmem)
  | some f =>
    have hp := List.find?_some hfind
    have hv : validateFilterFields ast valid =
        .error ("Cannot search on field: " ++ f) := by
      unfold validateFilterFields
      rw [hfind]
    refine ⟨f, ?_, ?_⟩
    · unfold processFilter
      simp only [hparse, hv]
    · simpa using hp

/-- C5 counterexample: the filter document carrying the unknown field
`invalid-field` inside the `lower` bound of a `between` node parses to a
tree referencing that field, passes field validation untouched, and the
request then dies in filter compilation with an unhandled key error, not
with the claimed `Cannot search on field` validation error. -/
theorem c5_counterexample :
    parseDoc (addFilterCrs (Int.ofNat 4326) c5Doc) = .ok (some c5Ast) ∧
    "invalid-field" ∈ collectAllAttrs c5Ast ∧
    (validFieldsPost none).contains "invalid-field" = false ∧
    validateFilterFields c5Ast (validFieldsPost none) = .ok () ∧
    runPostSearch baseCfg oracle0 c5Req [] = .error (.keyErr "invalid-field") := by
  have htag : addFilterCrs (Int.ofNat 4326) c5Doc = c5Doc := by
    simp [c5Doc, addFilterCrs, addFilterCrsKvs, isGeomObjKvs, jlookup, isGeomType]
  have hsz : jsize c5Doc = 17 := by
    simp [c5Doc, jsize, jsizeKvs, jsizeList]
  have hparse : parseDoc c5Doc = .ok (some c5Ast) := by
    unfold parseDoc
    rw [show c5Doc = Json.obj [("between", Json.obj
      [("value", Json.obj [("property", Json.str "gsd")]),
       ("lower", Json.obj [("property", Json.str "invalid-field")]),
       ("upper", Json.num 50)])] from rfl]
    rw [show jsize (Json.obj [("between", Json.obj
      [("value", Json.obj [("property", Json.str "gsd")]),
       ("lower", Json.obj [("property", Json.str "invalid-field")]),
       ("upper", Json.num 50)])]) = 17 from hsz]
    rfl
  have hpf : processFilter (validFieldsPost none) 4326 c5Doc =
      .error (.keyErr "invalid-field") := by
    unfold processFilter
    rw [htag]
    simp only [hparse]
    rfl
  have hrun : runPostSearch baseCfg oracle0 c5Req [] =
      .error (.keyErr "invalid-field") := by
    have hpf2 : processFilter (validFieldsPost c5Req.collections)
        (if baseCfg.filterEnabled = true then c5Req.filterCrsSrid else 4326) c5Doc =
        .error (.keyErr "invalid-field") := hpf
    unfold runPostSearch buildQueryPost buildQueryElse
    simp only [hpf2]
    rfl
  refine ⟨by rw [htag]; exact hparse, by decide, by decide, rfl, hrun⟩

/-- C5 witness: the specification example filter referencing
`invalid-field` in an `eq` node is rejected with the claimed message. -/
theorem c5_witness :
    parseDoc (addFilterCrs (Int.ofNat 4326) c5wDoc) = .ok (some c5wAst) ∧
    ∃ f, processFilter (validFieldsPost none) 4326 c5wDoc =
        .error (.invalidField ("Cannot search on field: " ++ f)) ∧
      (validFieldsPost none).contains f = false := by
  have htag : addFilterCrs (Int.ofNat 4326) c5wDoc = c5wDoc := by
    simp [c5wDoc, addFilterCrs, addFilterCrsKvs, addFilterCrsList,
      isGeomObjKvs, jlookup, isGeomType]
  have hsz : jsize c5wDoc = 12 := by
    simp [c5wDoc, jsize, jsizeKvs, jsizeList]
  have hparse : parseDoc c5wDoc = .ok (some c5wAst) := by
    unfold parseDoc
    rw [show c5wDoc = Json.obj [("eq", Json.arr
      [Json.obj [("property", Json.str "invalid-field")], Json.num 50])] from rfl]
    rw [show jsize (Json.obj [("eq", Json.arr
      [Json.obj [("property", Json.str "invalid-field")], Json.num 50])]) = 12 from hsz]
    rfl
  refine ⟨by rw [htag]; exact hparse, ?_⟩
  exact c5_unknown_field_rejected (validFieldsPost none) 4326 c5wDoc c5wAst
    (by rw [htag]; exact hparse) (by decide)

end StacSql

namespace StacSql

/-- Looking up a different key is unaffected by `setKey`. -/
theorem jlookup_setKey_ne (kvs : List (String × Json)) (k k' : String)
    (v : Json) (h : k ≠ k') :
    jlookup (setKey kvs k v) k' = jlookup kvs k' := by
  induction kvs with
  | nil => simp [setKey, jlookup, h]
  | cons kv rest ih =>
    obtain ⟨k0, v0⟩ := kv
    by_cases h0 : k0 = k
    · subst h0
      simp [setKey, jlookup, h]
    · simp [setKey, jlookup, h0]
      by_cases h1 : k0 = k'
      · simp [h1]
      · simp [h1, ih]

/-- Setting the `crs` member leaves geometry-object detection unchanged. -/
theorem isGeomObjKvs_setKey_crs (kvs : List (String × Json)) (v : Json) :
    isGeomObjKvs (setKey kvs "crs" v) = isGeomObjKvs kvs := by
  unfold isGeomObjKvs
  rw [jlookup_setKey_ne kvs "crs" "type" v (by decide)]

/-- On a member list without a `crs` key, `setKey kvs crs v` appends the
new member at the end. -/
theorem setKey_crs_append (kvs : List (String × Json)) (v : Json)
    (h : noCrsKvs kvs = true) :
    setKey kvs "crs" v = kvs ++ [("crs", v)] := by
  induction kvs with
  | nil => rfl
  | cons kv rest ih =>
    obtain ⟨k0, v0⟩ := kv
    simp only [noCrsKvs, Bool.and_eq_true, Bool.not_eq_true',
      decide_eq_false_iff_not] at h
    simp [setKey, h.1.1, ih h.2]

/-- Deleting the freshly set `crs` member recovers a crs-free list. -/
theorem delKey_setKey_crs (kvs : List (String × Json)) (v : Json)
    (h : noCrsKvs kvs = true) :
    delKey (setKey kvs "crs" v) "crs" = kvs := by
  rw [setKey_crs_append kvs v h]
  induction kvs with
  | nil => rfl
  | cons kv rest ih =>
    obtain ⟨k0, v0⟩ := kv
    simp only [noCrsKvs, Bool.and_eq_true, Bool.not_eq_true',
      decide_eq_false_iff_not] at h
    simp [delKey, h.1.1, ih h.2]

/-- Lookup commutes with the member-wise `add_filter_crs` walk. -/
theorem jlookup_addFilterCrsKvs (c : Int) (kvs : List (String × Json))
    (k : String) :
    jlookup (addFilterCrsKvs c kvs) k = (jlookup kvs k).map (addFilterCrs c) := by
  induction kvs with
  | nil => simp [addFilterCrsKvs, jlookup]
  | cons kv rest ih =>
    obtain ⟨k0, v0⟩ := kv
    by_cases h0 : k0 = k
    · simp [addFilterCrsKvs, jlookup, h0]
    · simp [addFilterCrsKvs, jlookup, h0, ih]

/-- The member-wise walk leaves geometry-object detection unchanged. -/
theorem isGeomObjKvs_addFilterCrsKvs (c : Int) (kvs : List (String × Json)) :
    isGeomObjKvs (addFilterCrsKvs c kvs) = isGeomObjKvs kvs := by
  unfold isGeomObjKvs
  rw [jlookup_addFilterCrsKvs]
  cases h : jlookup kvs "type" with
  | none => rfl
  | some v =>
    cases v with
    | obj kvs2 =>
      by_cases hc : isGeomObjKvs kvs2 = true
      · simp [addFilterCrs, hc]
      · simp [addFilterCrs, hc]
    | arr xs2 => simp [addFilterCrs]
    | str t => simp [addFilterCrs]
    | null => simp [addFilterCrs]
    | bool b => simp [addFilterCrs]
    | num n => simp [addFilterCrs]

mutual
/-- On a crs-free document, the erasing walk undoes `add_filter_crs`:
the walk adds exactly the `crs` members the erasing walk removes and
modifies nothing else. -/
theorem erase_add (c : Int) : (j : Json) → noCrs j = true →
    eraseGeomCrs (addFilterCrs c j) = j
  | .null, _ => by simp [addFilterCrs, eraseGeomCrs]
  | .bool b, _ => by simp [addFilterCrs, eraseGeomCrs]
  | .num n, _ => by simp [addFilterCrs, eraseGeomCrs]
  | .str s, _ => by simp [addFilterCrs, eraseGeomCrs]
  | .arr xs, h => by
    have h2 : noCrsList xs = true := by simpa [noCrs] using h
    simp only [addFilterCrs, eraseGeomCrs]
    rw [erase_add_list c xs h2]
  | .obj kvs, h => by
    have hk : noCrsKvs kvs = true := by simpa [noCrs] using h
    by_cases hg : isGeomObjKvs kvs = true
    · rw [show addFilterCrs c (.obj kvs) = .obj (setKey kvs "crs" (.num c)) from
        by simp [addFilterCrs, hg]]
      rw [show eraseGeomCrs (.obj (setKey kvs "crs" (.num c)))
          = .obj (delKey (setKey kvs "crs" (.num c)) "crs") from
        by simp [eraseGeomCrs, isGeomObjKvs_setKey_crs, hg]]
      rw [delKey_setKey_crs kvs _ hk]
    · rw [show addFilterCrs c (.obj kvs) = .obj (addFilterCrsKvs c kvs) from
        by simp [addFilterCrs, hg]]
      rw [show eraseGeomCrs (.obj (addFilterCrsKvs c kvs))
          = .obj (eraseGeomCrsKvs (addFilterCrsKvs c kvs)) from
        by simp [eraseGeomCrs, isGeomObjKvs_addFilterCrsKvs, hg]]
      rw [erase_add_kvs c kvs hk]

/-- List part of the erase-add recovery. -/
theorem erase_add_list (c : Int) : (xs : List Json) → noCrsList xs = true →
    eraseGeomCrsList (addFilterCrsList c xs) = xs
  | [], _ => by simp [addFilterCrsList, eraseGeomCrsList]
  | x :: xs, h => by
    have h1 : noCrs x = true ∧ noCrsList xs = true := by
      simpa [noCrsList, Bool.and_eq_true] using h
    simp only [addFilterCrsList, eraseGeomCrsList]
    rw [erase_add c x h1.1, erase_add_list c xs h1.2]

/-- Object-member part of the erase-add recovery. -/
theorem erase_add_kvs (c : Int) : (kvs : List (String × Json)) →
    noCrsKvs kvs = true → eraseGeomCrsKvs (addFilterCrsKvs c kvs) = kvs
  | [], _ => by simp [addFilterCrsKvs, eraseGeomCrsKvs]
  | (k, v) :: xs, h => by
    have h1 : noCrs v = true ∧ noCrsKvs xs = true := by
      simp only [noCrsKvs, Bool.and_eq_true] at h
      exact ⟨h.1.2, h.2⟩
    simp only [addFilterCrsKvs, eraseGeomCrsKvs]
    rw [erase_add c v h1.1, erase_add_kvs c xs h1.2]
end

/-- C6 amended: before compilation the walk tags every OUTERMOST geometry
object of a crs-free filter document, i.e. every geometry object reached
without passing through another geometry object, by appending a `crs`
member carrying the filter SRID, leaving its other members, including
the `geometries` array of a GeometryCollection, untouched; undoing
exactly those `crs` insertions recovers the original document, so no
other part of the document is modified.  Geometries nested inside a
tagged GeometryCollection are not themselves tagged. -/
theorem c6_filter_crs_tagging (c : Int) (j : Json) (h : noCrs j = true) :
    eraseGeomCrs (addFilterCrs c j) = j ∧
    ∀ kvs, isGeomObjKvs kvs = true → noCrsKvs kvs = true →
      addFilterCrs c (.obj kvs) = .obj (kvs ++ [("crs", .num c)]) := by
  refine ⟨erase_add c j h, ?_⟩
  intro kvs hg hk
  rw [show addFilterCrs c (Json.obj kvs) = .obj (setKey kvs "crs" (.num c)) from
    by simp [addFilterCrs, hg]]
  rw [setKey_crs_append kvs _ hk]

/-- C6 counterexample: in a filter document whose geometry literal is a
GeometryCollection, the walk tags the collection itself but leaves its
member Point geometry without a `crs` member, against the claim that
geometries at any nesting depth are tagged. -/
theorem c6_counterexample :
    jgetPath (addFilterCrs 25832 c6Doc)
      [.key "intersects", .idx 1, .key "crs"] = some (.num 25832) ∧
    jgetPath (addFilterCrs 25832 c6Doc)
      [.key "intersects", .idx 1, .key "geometries", .idx 0, .key "crs"] = none ∧
    jgetPath (addFilterCrs 25832 c6Doc)
      [.key "intersects", .idx 1, .key "geometries", .idx 0, .key "type"]
      = some (.str "Point") := by
  have ht : addFilterCrs 25832 c6Doc = .obj [("intersects", .arr
      [.obj [("property", .str "geometry")],
       .obj [("type", .str "GeometryCollection"),
             ("geometries", .arr [c6Point]), ("crs", .num 25832)]])] := by
    simp [c6Doc, c6GColl, c6Point, addFilterCrs, addFilterCrsList,
      addFilterCrsKvs, isGeomObjKvs, jlookup, isGeomType, setKey]
  rw [ht]
  refine ⟨rfl, ?_, ?_⟩ <;> simp [jgetPath, jlookup, c6Point]

/-- C6 witness: the crs-free document `c6wDoc` satisfies the hypothesis
and the amended tagging property holds of it at SRID 25832. -/
theorem c6_witness :
    noCrs c6wDoc = true ∧
    (eraseGeomCrs (addFilterCrs 25832 c6wDoc) = c6wDoc ∧
     ∀ kvs, isGeomObjKvs kvs = true → noCrsKvs kvs = true →
       addFilterCrs 25832 (.obj kvs) = .obj (kvs ++ [("crs", .num 25832)])) := by
  have h : noCrs c6wDoc = true := by
    simp [c6wDoc, c6wKvs, noCrs, noCrsList, noCrsKvs]
  exact ⟨h, c6_filter_crs_tagging 25832 c6wDoc h⟩

end StacSql
